import Mathlib

/-!
Verification of the marker-based rectification engine in
`src/image_processor.py` of the lifestone repository.

The engine is shallowly embedded over ℚ: pixel coordinates and physical
lengths are exact rationals, Python `int()` truncation is `pyInt`,
`np.clip` is `clip`, and the OpenCV collaborators (grayscale conversion,
ArUco detection, homography solving, warping) are modelled as an explicit
record of deterministic functions `CV` threaded through the pipeline, so
that the control flow, error taxonomy and all coordinate arithmetic of
`process_slab_image` are faithfully reproduced.
-/

namespace Lifestone

/-- A pixel coordinate (x, y), exact rational. -/
abbrev Point : Type := ℚ × ℚ

/-- A detected marker's four corners, in the ArUco order
index 0 = TL, 1 = TR, 2 = BR, 3 = BL of the marker's own orientation
(`c.reshape(4,2)` in the source). -/
structure Quad where
  p0 : Point
  p1 : Point
  p2 : Point
  p3 : Point
deriving DecidableEq

/-- A decoded image buffer: dimensions plus pixel contents. -/
structure Img where
  width : ℤ
  height : ℤ
  pix : ℤ → ℤ → ℤ

/-- Error taxonomy of the engine (spec §7).  The source raises `ValueError`
with distinct messages for the first four; `invalidGeometryConfig` is named
by the spec's taxonomy but never raised by the source; `ioFailure` models an
uncaught OS/IO exception escaping a write; `lookupFailure` models a Python
`KeyError` on the id-to-corners dictionary. -/
inductive PErr where
  | imageLoadFailure
  | markerNotDetected
  | missingRequiredIDs (missing : List ℕ)
  | invalidCropBoundary
  | invalidGeometryConfig
  | ioFailure
  | lookupFailure
deriving DecidableEq

def REQUIRED_IDS : List ℕ := [1, 18, 43, 14]

def BOTTOM_EXTRA_PX : ℚ := 300

def PRE_MARGIN_PX : ℚ := 244

def TARGET_PPI : ℚ := 25.4

def CAMERA_DISTANCE_IN : ℚ := 120.0

def SUPPORT_THICKNESS_IN : ℚ := 0.245

/-- Python `int()` on a real value: truncation toward zero. -/
def pyInt (q : ℚ) : ℤ := if 0 ≤ q then ⌊q⌋ else ⌈q⌉

/-- `np.clip(v, lo, hi) = min(max(v, lo), hi)` (hi wins when lo > hi). -/
def clip (v lo hi : ℚ) : ℚ := min (max v lo) hi

/-- `stone_thickness_in = stone_thickness_mm / 25.4` (source line 63). -/
def stone_thickness_in (stone_thickness_mm : ℚ) : ℚ := stone_thickness_mm / 25.4

/-- `total_offset_in = stone_thickness_in + SUPPORT_THICKNESS_IN` (line 64). -/
def total_offset_in (stone_thickness_mm : ℚ) : ℚ :=
  stone_thickness_in stone_thickness_mm + SUPPORT_THICKNESS_IN

/-- Source line 67. -/
def corrected_width_in (frame_width_in stone_thickness_mm : ℚ) : ℚ :=
  frame_width_in * (CAMERA_DISTANCE_IN - total_offset_in stone_thickness_mm) / CAMERA_DISTANCE_IN

/-- Source line 68. -/
def corrected_height_in (frame_height_in stone_thickness_mm : ℚ) : ℚ :=
  frame_height_in * (CAMERA_DISTANCE_IN - total_offset_in stone_thickness_mm) / CAMERA_DISTANCE_IN

/-- `px_per_mm = TARGET_PPI / 25.4` (source line 112). -/
def px_per_mm : ℚ := TARGET_PPI / 25.4

/-- `dst_w = int(corrected_width_in * 25.4 * px_per_mm)` (source line 113). -/
def dst_w (frame_width_in stone_thickness_mm : ℚ) : ℤ :=
  pyInt (corrected_width_in frame_width_in stone_thickness_mm * 25.4 * px_per_mm)

/-- `dst_h = int(corrected_height_in * 25.4 * px_per_mm)` (source line 114). -/
def dst_h (frame_height_in stone_thickness_mm : ℚ) : ℤ :=
  pyInt (corrected_height_in frame_height_in stone_thickness_mm * 25.4 * px_per_mm)

/-- The parallax scale factor as the spec states it (§4.3):
`(camera_distance - (slab_thickness + support_thickness)) / camera_distance`,
with the slab thickness converted from millimetres to inches. -/
def scale_factor (stone_thickness_mm : ℚ) : ℚ :=
  (CAMERA_DISTANCE_IN - (stone_thickness_mm / 25.4 + SUPPORT_THICKNESS_IN)) / CAMERA_DISTANCE_IN

/-- The detector's raw result: `none` models `ids is None`, otherwise the
list of `(id, corners)` pairs returned by `detectMarkers`. -/
def detect_markers (detection : Option (List (ℕ × Quad))) :
    Except PErr (List (ℕ × Quad)) :=
  match detection with
  | none => .error .markerNotDetected
  | some dets =>
    if dets.length < 4 then .error .markerNotDetected
    else
      let ids_flat := dets.map Prod.fst
      let missing := REQUIRED_IDS.filter (fun mid => ! ids_flat.contains mid)
      if missing.isEmpty then .ok dets else .error (.missingRequiredIDs missing)

/-- A degenerate 4-corner polygon used as a placeholder in synthetic
detection sets whose corner geometry is irrelevant. -/
def q0 : Quad := ⟨(0, 0), (0, 0), (0, 0), (0, 0)⟩

/-- Maximum x over a transformed marker polygon (`np.max(pts[:,0])`). -/
def qmaxX (q : Quad) : ℚ := max (max q.p0.1 q.p1.1) (max q.p2.1 q.p3.1)

/-- Minimum x over a transformed marker polygon (`np.min(pts[:,0])`). -/
def qminX (q : Quad) : ℚ := min (min q.p0.1 q.p1.1) (min q.p2.1 q.p3.1)

/-- Maximum y over a transformed marker polygon (`np.max(pts[:,1])`). -/
def qmaxY (q : Quad) : ℚ := max (max q.p0.2 q.p1.2) (max q.p2.2 q.p3.2)

/-- `left_boundary = max over m in (1,14) of max-x` (source line 135). -/
def left_boundary (t1 t14 : Quad) : ℚ := max (qmaxX t1) (qmaxX t14)

/-- `right_boundary = min over m in (18,43) of min-x` (source line 136). -/
def right_boundary (t18 t43 : Quad) : ℚ := min (qminX t18) (qminX t43)

/-- `top_boundary = max over m in (1,18) of max-y` (source line 137). -/
def top_boundary (t1 t18 : Quad) : ℚ := max (qmaxY t1) (qmaxY t18)

/-- `bottom_boundary = max over m in (14,43) of max-y` (source line 138). -/
def bottom_boundary (t14 t43 : Quad) : ℚ := max (qmaxY t14) (qmaxY t43)

/-- `left = int(np.clip(left_boundary, 0, w2-1))` (source line 141). -/
def crop_left (t1 t14 : Quad) (w2 : ℤ) : ℤ :=
  pyInt (clip (left_boundary t1 t14) 0 ((w2 : ℚ) - 1))

/-- `right = int(np.clip(right_boundary, 0, w2-1))` (source line 142). -/
def crop_right (t18 t43 : Quad) (w2 : ℤ) : ℤ :=
  pyInt (clip (right_boundary t18 t43) 0 ((w2 : ℚ) - 1))

/-- `top = int(np.clip(top_boundary, 0, h2-1))` (source line 143). -/
def crop_top (t1 t18 : Quad) (h2 : ℤ) : ℤ :=
  pyInt (clip (top_boundary t1 t18) 0 ((h2 : ℚ) - 1))

/-- `bottom = int(np.clip(bottom_boundary + BOTTOM_EXTRA_PX, 0, h2-1))`
(source line 144). -/
def crop_bottom (t14 t43 : Quad) (h2 : ℤ) : ℤ :=
  pyInt (clip (bottom_boundary t14 t43 + BOTTOM_EXTRA_PX) 0 ((h2 : ℚ) - 1))

/-- The crop validity check and final bounds (source lines 146-149):
raises `InvalidCropBoundary` when `left >= right or top >= bottom`. -/
def interior_crop (t1 t18 t43 t14 : Quad) (w2 h2 : ℤ) :
    Except PErr (ℤ × ℤ × ℤ × ℤ) :=
  if crop_left t1 t14 w2 ≥ crop_right t18 t43 w2 ∨
     crop_top t1 t18 h2 ≥ crop_bottom t14 t43 h2 then
    .error .invalidCropBoundary
  else
    .ok (crop_left t1 t14 w2, crop_right t18 t43 w2,
         crop_top t1 t18 h2, crop_bottom t14 t43 h2)

/-- The physical frame corner occupied by a required marker. -/
inductive Role where
  | TL
  | TR
  | BR
  | BL
deriving DecidableEq

/-- The engine's fixed marker-ID-to-corner convention, read off the
`src_pts` construction (source lines 105-110): id 1 is the top-left
marker, 18 top-right, 43 bottom-right, 14 bottom-left. -/
def role_id : Role → ℕ
  | .TL => 1
  | .TR => 18
  | .BR => 43
  | .BL => 14

/-- Modelled from the spec (§4.5): `left = max over {TL-id, BL-id} of
max-x of their transformed corners`, clamped to `[0, dimension-1]`. -/
def spec_crop_left (tfr : Role → Quad) (w2 : ℤ) : ℤ :=
  pyInt (clip (max (qmaxX (tfr .TL)) (qmaxX (tfr .BL))) 0 ((w2 : ℚ) - 1))

/-- Modelled from the spec (§4.5): `right = min over {TR-id, BR-id} of
min-x`, clamped. -/
def spec_crop_right (tfr : Role → Quad) (w2 : ℤ) : ℤ :=
  pyInt (clip (min (qminX (tfr .TR)) (qminX (tfr .BR))) 0 ((w2 : ℚ) - 1))

/-- Modelled from the spec (§4.5): `top = max over {TL-id, TR-id} of
max-y`, clamped. -/
def spec_crop_top (tfr : Role → Quad) (h2 : ℤ) : ℤ :=
  pyInt (clip (max (qmaxY (tfr .TL)) (qmaxY (tfr .TR))) 0 ((h2 : ℚ) - 1))

/-- Modelled from the spec (§4.5): `bottom = max over {BL-id, BR-id} of
max-y, plus a fixed extra margin`, clamped. -/
def spec_crop_bottom (tfr : Role → Quad) (h2 : ℤ) : ℤ :=
  pyInt (clip (max (qmaxY (tfr .BL)) (qmaxY (tfr .BR)) + BOTTOM_EXTRA_PX) 0 ((h2 : ℚ) - 1))

/-- An interior-crop result is never a silently degenerate crop: any `ok`
bounds satisfy `left < right` and `top < bottom`. -/
def crop_ok_nondegen : Except PErr (ℤ × ℤ × ℤ × ℤ) → Bool
  | .ok (l, r, t, b) => decide (l < r) && decide (t < b)
  | .error _ => true

/-- A synthetic degenerate layout: all four markers transformed onto the
same 40x40 square, in particular the TL and TR markers coincide. -/
def qsq : Quad := ⟨(0, 0), (39, 0), (39, 39), (0, 39)⟩

/-- `np.min` over a coordinate list (the list is nonempty in the engine:
detection guarantees at least four markers of four corners each). -/
def qlistMin : List ℚ → ℚ
  | [] => 0
  | x :: xs => xs.foldl min x

/-- `np.max` over a coordinate list. -/
def qlistMax : List ℚ → ℚ
  | [] => 0
  | x :: xs => xs.foldl max x

/-- `pre_top = int(max(y_min - 10, 0))` (source line 91). -/
def pre_top (y_min : ℚ) : ℤ := pyInt (max (y_min - 10) 0)

/-- `pre_left = int(max(x_min - 10, 0))` (source line 92). -/
def pre_left (x_min : ℚ) : ℤ := pyInt (max (x_min - 10) 0)

/-- `pre_right = int(min(x_max + 10, w-1))` (source line 93). -/
def pre_right (x_max : ℚ) (w : ℤ) : ℤ := pyInt (min (x_max + 10) ((w : ℚ) - 1))

/-- `pre_bottom = int(min(y_max + PRE_MARGIN_PX, h-1))` (source line 94). -/
def pre_bottom (y_max : ℚ) (h : ℤ) : ℤ :=
  pyInt (min (y_max + PRE_MARGIN_PX) ((h : ℚ) - 1))

/-- numpy sub-array `img[t:b, l:r]`.  For the bounds the engine produces
(always within `[0, dim-1]` on each axis) the slice shape is
`(max 0 (b-t), max 0 (r-l))`. -/
def cropImg (img : Img) (t b l r : ℤ) : Img :=
  { width := max 0 (r - l)
    height := max 0 (b - t)
    pix := fun y x => img.pix (y + t) (x + l) }

/-- The OpenCV collaborators used by the engine, modelled as an explicit
record of deterministic functions: grayscale conversion, ArUco detection,
`getPerspectiveTransform` (returning the homography as a point map, which
is also how `perspectiveTransform` applies it), and the pixel contents
produced by `warpPerspective` for a requested `(dw, dh)` buffer. -/
structure CV where
  gray : Img → Img
  detect : Img → Option (List (ℕ × Quad))
  getPerspectiveTransform : Quad → Quad → Point → Point
  warpPix : Img → (Point → Point) → ℤ → ℤ → ℤ → ℤ → ℤ

/-- `cv2.warpPerspective(src, M, (dw, dh))`: a buffer of exactly the
requested dimensions (documented cv2 contract). -/
def mkWarped (cv : CV) (src : Img) (M : Point → Point) (dw dh : ℤ) : Img :=
  { width := dw, height := dh, pix := cv.warpPix src M dw dh }

/-- Whether each best-effort filesystem write performed by one invocation
succeeds: saving the rectified image, writing the `_info.txt` sidecar, and
writing the debug overlay. -/
structure Env where
  save_ok : Bool
  sidecar_ok : Bool
  debug_ok : Bool

/-- The caller-supplied parameters of `process_slab_image`; `debug_path`
records whether a debug path was supplied (default is non-None). -/
structure Config where
  stone_thickness_mm : ℚ
  frame_width_in : ℚ
  frame_height_in : ℚ
  debug_path : Bool

/-- Python dict construction `{id_[0]: c for c, id_ in zip(...)}` followed
by lookup: on duplicate ids the last occurrence wins. -/
def dlookup (l : List (ℕ × Quad)) (k : ℕ) : Option Quad :=
  l.foldl (fun acc p => if p.1 = k then some p.2 else acc) none

/-- `cv2.perspectiveTransform` applied to a marker polygon: the homography
point map applied to each corner. -/
def qmap (M : Point → Point) (q : Quad) : Quad := ⟨M q.p0, M q.p1, M q.p2, M q.p3⟩

/-- The corner points of one marker, in detection order. -/
def quadPoints (q : Quad) : List Point := [q.p0, q.p1, q.p2, q.p3]

/-- Stage 1 pre-crop (source lines 86-96): bounding box of all detected
corner points, padded by 10 px (left/top/right) and `PRE_MARGIN_PX` at the
bottom, clamped to image bounds, then sliced. -/
def pre_crop_img (image : Img) (dets : List (ℕ × Quad)) : Img :=
  cropImg image
    (pre_top (qlistMin (((dets.map (fun p => quadPoints p.2)).flatten).map Prod.snd)))
    (pre_bottom (qlistMax (((dets.map (fun p => quadPoints p.2)).flatten).map Prod.snd)) image.height)
    (pre_left (qlistMin (((dets.map (fun p => quadPoints p.2)).flatten).map Prod.fst)))
    (pre_right (qlistMax (((dets.map (fun p => quadPoints p.2)).flatten).map Prod.fst)) image.width)

/-- The tail of `process_slab_image` (source lines 154-172): save the
output image, write the `_info.txt` sidecar, then the debug overlay when a
debug path was supplied.  None of these writes is guarded by a handler in
the source, so the first failing one propagates as an error. -/
def finalize (env : Env) (debug_path : Bool) (final : Img) : Except PErr Img :=
  if env.save_ok then
    if env.sidecar_ok then
      if debug_path then
        if env.debug_ok then .ok final else .error .ioFailure
      else .ok final
    else .error .ioFailure
  else .error .ioFailure

/-- The four reference source corners (source lines 105-110): the TL
corner of marker 1, TR corner of 18, BR corner of 43, BL corner of 14. -/
def src_quad (q1 q18 q43 q14 : Quad) : Quad := ⟨q1.p0, q18.p1, q43.p2, q14.p3⟩

/-- The warp target rectangle corners (source lines 116-121). -/
def dst_quad (dw dh : ℤ) : Quad :=
  ⟨(0, 0), ((dw : ℚ) - 1, 0), ((dw : ℚ) - 1, (dh : ℚ) - 1), (0, (dh : ℚ) - 1)⟩

/-- Warp and interior crop for already-looked-up marker quads (source
lines 105-149): derive the homography from the reference corners onto the
target rectangle, warp into a `(dw, dh)` buffer, transform every marker
polygon through the same homography, and cut the interior crop. -/
def rectify_with (cv : CV) (pre : Img) (q1 q18 q43 q14 : Quad) (dw dh : ℤ) :
    Except PErr Img :=
  match interior_crop
      (qmap (cv.getPerspectiveTransform (src_quad q1 q18 q43 q14) (dst_quad dw dh)) q1)
      (qmap (cv.getPerspectiveTransform (src_quad q1 q18 q43 q14) (dst_quad dw dh)) q18)
      (qmap (cv.getPerspectiveTransform (src_quad q1 q18 q43 q14) (dst_quad dw dh)) q43)
      (qmap (cv.getPerspectiveTransform (src_quad q1 q18 q43 q14) (dst_quad dw dh)) q14)
      dw dh with
  | .error e => .error e
  | .ok (l, r, t, b) =>
    .ok (cropImg
      (mkWarped cv pre
        (cv.getPerspectiveTransform (src_quad q1 q18 q43 q14) (dst_quad dw dh)) dw dh)
      t b l r)

/-- Stage 2 (source lines 100-149): build `id_to_corners` and rectify;
a missing required id at this point would be a Python `KeyError`
(unreachable after a successful `_detect_markers`). -/
def rectify_core (cv : CV) (cfg : Config) (pre : Img) (det2 : List (ℕ × Quad)) :
    Except PErr Img :=
  match dlookup det2 1, dlookup det2 18, dlookup det2 43, dlookup det2 14 with
  | some q1, some q18, some q43, some q14 =>
    rectify_with cv pre q1 q18 q43 q14
      (dst_w cfg.frame_width_in cfg.stone_thickness_mm)
      (dst_h cfg.frame_height_in cfg.stone_thickness_mm)
  | _, _, _, _ => .error .lookupFailure

/-- The full engine entry point: load, detect, pre-crop, re-detect,
rectify, interior-crop, then the best-effort writes.  `input = none`
models an image that cannot be decoded. -/
def process_slab_image (cv : CV) (cfg : Config) (input : Option Img) (env : Env) :
    Except PErr Img :=
  match input with
  | none => .error .imageLoadFailure
  | some image =>
    Except.bind (detect_markers (cv.detect (cv.gray image))) (fun dets =>
      Except.bind (detect_markers (cv.detect (cv.gray (pre_crop_img image dets)))) (fun det2 =>
        Except.bind (rectify_core cv cfg (pre_crop_img image dets) det2) (fun final =>
          finalize env cfg.debug_path final)))

/-- A 2000x2000 black input image. -/
def img0 : Img := ⟨2000, 2000, fun _ _ => 0⟩

/-- All filesystem writes succeed. -/
def envAll : Env := ⟨true, true, true⟩

/-- The default configuration of `process_slab_image`. -/
def cfg0 : Config := ⟨30, 153.625, 94.2, true⟩

/-- A geometry-violating configuration: a 3100 mm (≈122.05 in) slab is
thicker than the 120 in camera distance minus the support. -/
def cfgBad : Config := ⟨3100, 153.625, 94.2, true⟩

def quadTL : Quad := ⟨(0, 0), (39, 0), (39, 39), (0, 39)⟩

def quadTR : Quad := ⟨(1000, 0), (1039, 0), (1039, 39), (1000, 39)⟩

def quadBR : Quad := ⟨(1000, 1000), (1039, 1000), (1039, 1039), (1000, 1039)⟩

def quadBL : Quad := ⟨(0, 1000), (39, 1000), (39, 1039), (0, 1039)⟩

/-- A synthetic detection result with the four required markers
well-separated and correctly labeled. -/
def fixtureDet : List (ℕ × Quad) := [(1, quadTL), (18, quadTR), (43, quadBR), (14, quadBL)]

/-- A deterministic OpenCV double whose detector always reports
`fixtureDet` and whose homography solver returns the identity map. -/
def cv0 : CV := ⟨id, fun _ => some fixtureDet, fun _ _ => id, fun _ _ _ _ _ _ => 0⟩

/-- A deterministic OpenCV double whose detector finds nothing. -/
def cvNone : CV := ⟨id, fun _ => none, fun _ _ => id, fun _ _ _ _ _ _ => 0⟩

/-- Whether a pipeline outcome is the spec's `InvalidGeometryConfig`
failure. -/
def isInvalidGeometryError : Except PErr Img → Bool
  | .error .invalidGeometryConfig => true
  | _ => false

/-- The rectified output image of the fixture run: the 3855x2364 warp
buffer cut down to the 961x1300 interior. -/
def finFix : Img := ⟨961, 1300, fun _ _ => 0⟩

-- ---------------------------------------------------------------------------
-- Theorems
-- ---------------------------------------------------------------------------

theorem pyInt_of_nonneg {q : ℚ} (h : 0 ≤ q) : pyInt q = ⌊q⌋ := if_pos h

theorem pyInt_intCast (n : ℤ) : pyInt (n : ℚ) = n := by
  unfold pyInt
  split
  · exact Int.floor_intCast n
  · exact Int.ceil_intCast n

/-- C4: the scale resolver applies the parallax formula, the same factor on
both axes, converts to pixels at the fixed output density, and on the default
configuration (153.625in x 94.2in frame, 30mm slab, 0.245in support, 120in
camera distance, density 25.4 px/in) yields a scale factor within 5e-6 of
0.98812 and corrected dimensions within 5e-3 of 151.80in x 93.08in. -/
theorem c4_scale_resolver :
    (∀ fw mm : ℚ, corrected_width_in fw mm = fw * scale_factor mm) ∧
    (∀ fh mm : ℚ, corrected_height_in fh mm = fh * scale_factor mm) ∧
    (∀ fw mm : ℚ, dst_w fw mm = pyInt (corrected_width_in fw mm * TARGET_PPI)) ∧
    (∀ fh mm : ℚ, dst_h fh mm = pyInt (corrected_height_in fh mm * TARGET_PPI)) ∧
    |scale_factor 30 - 0.98812| < 0.000005 ∧
    |corrected_width_in 153.625 30 - 151.80| < 0.005 ∧
    |corrected_height_in 94.2 30 - 93.08| < 0.005 := by
  refine ⟨?_, ?_, ?_, ?_, ?_, ?_, ?_⟩
  · intro fw mm
    unfold corrected_width_in scale_factor total_offset_in stone_thickness_in
      CAMERA_DISTANCE_IN SUPPORT_THICKNESS_IN
    ring
  · intro fh mm
    unfold corrected_height_in scale_factor total_offset_in stone_thickness_in
      CAMERA_DISTANCE_IN SUPPORT_THICKNESS_IN
    ring
  · intro fw mm
    unfold dst_w px_per_mm TARGET_PPI
    norm_num
  · intro fh mm
    unfold dst_h px_per_mm TARGET_PPI
    norm_num
  · unfold scale_factor CAMERA_DISTANCE_IN SUPPORT_THICKNESS_IN
    rw [abs_lt]
    norm_num
  · unfold corrected_width_in total_offset_in stone_thickness_in
      CAMERA_DISTANCE_IN SUPPORT_THICKNESS_IN
    rw [abs_lt]
    norm_num
  · unfold corrected_height_in total_offset_in stone_thickness_in
      CAMERA_DISTANCE_IN SUPPORT_THICKNESS_IN
    rw [abs_lt]
    norm_num

/-- C8: for fixed positive frame dimensions, the corrected dimensions are
strictly decreasing in the slab thickness. -/
theorem c8_scale_monotonic (fw fh t1 t2 : ℚ)
    (hfw : 0 < fw) (hfh : 0 < fh) (ht : t1 < t2) :
    corrected_width_in fw t2 < corrected_width_in fw t1 ∧
    corrected_height_in fh t2 < corrected_height_in fh t1 := by
  unfold corrected_width_in corrected_height_in total_offset_in stone_thickness_in
    CAMERA_DISTANCE_IN SUPPORT_THICKNESS_IN
  have key : (120.0 : ℚ) - (t2 / 25.4 + 0.245) < 120.0 - (t1 / 25.4 + 0.245) := by
    gcongr
  constructor
  · have hm := mul_lt_mul_of_pos_left key hfw
    have h120 : (0 : ℚ) < 120.0 := by norm_num
    exact div_lt_div_of_pos_right hm h120
  · have hm := mul_lt_mul_of_pos_left key hfh
    have h120 : (0 : ℚ) < 120.0 := by norm_num
    exact div_lt_div_of_pos_right hm h120

/-- C8 witness: the monotonicity theorem at the default frame with slab
thicknesses 30mm and 40mm. -/
theorem c8_scale_monotonic_witness :
    corrected_width_in 153.625 40 < corrected_width_in 153.625 30 ∧
    corrected_height_in 94.2 40 < corrected_height_in 94.2 30 :=
  c8_scale_monotonic 153.625 94.2 30 40 (by norm_num) (by norm_num) (by norm_num)

/-- C1 counterexample: removing required ID 1 from the synthetic detection
set leaves three markers, so `_detect_markers` raises the
`MarkerNotDetected` error (its `len(ids) < 4` check fires first), not
`MissingRequiredIDs([1])` as the claim states. -/
theorem c1_counterexample :
    detect_markers (some [(18, q0), (43, q0), (14, q0)]) =
      .error .markerNotDetected ∧
    detect_markers (some [(18, q0), (43, q0), (14, q0)]) ≠
      .error (.missingRequiredIDs [1]) := by
  constructor
  · rfl
  · intro h
    rw [show detect_markers (some [(18, q0), (43, q0), (14, q0)]) =
        .error .markerNotDetected from rfl] at h
    exact PErr.noConfusion (Except.error.inj h)

/-- C1 amended: for each of the four permutations where exactly one
required ID is removed and only the other three required markers remain,
detection fails with `MarkerNotDetected` (fewer than four markers found);
when the detection set keeps at least four markers (the removed required
marker replaced by a non-required one, e.g. ID 7), detection fails with
`MissingRequiredIDs` naming exactly the one missing ID; and the two errors
are distinguishable. -/
theorem c1_one_removed (r : ℕ) (hr : r ∈ REQUIRED_IDS) :
    detect_markers (some ((REQUIRED_IDS.erase r).map (fun i => (i, q0)))) =
      .error .markerNotDetected ∧
    detect_markers (some (((REQUIRED_IDS.erase r).map (fun i => (i, q0))) ++ [(7, q0)])) =
      .error (.missingRequiredIDs [r]) ∧
    ∀ m : List ℕ, PErr.markerNotDetected ≠ PErr.missingRequiredIDs m := by
  have h4 : r = 1 ∨ r = 18 ∨ r = 43 ∨ r = 14 := by
    simpa [REQUIRED_IDS] using hr
  rcases h4 with rfl | rfl | rfl | rfl <;>
    exact ⟨rfl, rfl, fun m h => PErr.noConfusion h⟩

/-- C1 witness: the amended statement instantiated at removed ID 18. -/
theorem c1_one_removed_witness :
    18 ∈ REQUIRED_IDS ∧
    detect_markers (some ((REQUIRED_IDS.erase 18).map (fun i => (i, q0)))) =
      .error .markerNotDetected ∧
    detect_markers (some (((REQUIRED_IDS.erase 18).map (fun i => (i, q0))) ++ [(7, q0)])) =
      .error (.missingRequiredIDs [18]) := by
  have h := c1_one_removed 18 (by simp [REQUIRED_IDS])
  exact ⟨by simp [REQUIRED_IDS], h.1, h.2.1⟩

/-- Any clamped crop bound lies in `[0, d-1]` when the dimension is
positive. -/
theorem pyInt_clip_bounds (v : ℚ) (d : ℤ) (hd : 1 ≤ d) :
    0 ≤ pyInt (clip v 0 ((d : ℚ) - 1)) ∧ pyInt (clip v 0 ((d : ℚ) - 1)) ≤ d - 1 := by
  have hd1 : (0 : ℚ) ≤ (d : ℚ) - 1 := by
    have : (1 : ℚ) ≤ (d : ℚ) := by exact_mod_cast hd
    linarith
  have hlo : 0 ≤ clip v 0 ((d : ℚ) - 1) :=
    le_min (le_max_right v 0) hd1
  have hhi : clip v 0 ((d : ℚ) - 1) ≤ (d : ℚ) - 1 := min_le_right _ _
  rw [pyInt_of_nonneg hlo]
  constructor
  · exact Int.le_floor.mpr (by exact_mod_cast hlo)
  · have h1 : (⌊clip v 0 ((d : ℚ) - 1)⌋ : ℤ) ≤ ⌊((d - 1 : ℤ) : ℚ)⌋ := by
      apply Int.floor_mono
      push_cast
      exact hhi
    rwa [Int.floor_intCast] at h1

/-- C5: the interior crop bounds the code computes from the markers with
IDs 1, 18, 43, 14 agree with the spec's role-based formulas under the
engine's TL/TR/BR/BL id convention, and all four bounds are clamped to
`[0, dimension-1]` of the warped buffer. -/
theorem c5_crop_formula (tf : ℕ → Quad) (w2 h2 : ℤ) (hw : 1 ≤ w2) (hh : 1 ≤ h2) :
    spec_crop_left (fun ro => tf (role_id ro)) w2 = crop_left (tf 1) (tf 14) w2 ∧
    spec_crop_right (fun ro => tf (role_id ro)) w2 = crop_right (tf 18) (tf 43) w2 ∧
    spec_crop_top (fun ro => tf (role_id ro)) h2 = crop_top (tf 1) (tf 18) h2 ∧
    spec_crop_bottom (fun ro => tf (role_id ro)) h2 = crop_bottom (tf 14) (tf 43) h2 ∧
    0 ≤ crop_left (tf 1) (tf 14) w2 ∧ crop_left (tf 1) (tf 14) w2 ≤ w2 - 1 ∧
    0 ≤ crop_right (tf 18) (tf 43) w2 ∧ crop_right (tf 18) (tf 43) w2 ≤ w2 - 1 ∧
    0 ≤ crop_top (tf 1) (tf 18) h2 ∧ crop_top (tf 1) (tf 18) h2 ≤ h2 - 1 ∧
    0 ≤ crop_bottom (tf 14) (tf 43) h2 ∧ crop_bottom (tf 14) (tf 43) h2 ≤ h2 - 1 := by
  refine ⟨rfl, rfl, rfl, rfl, ?_⟩
  have hL := pyInt_clip_bounds (left_boundary (tf 1) (tf 14)) w2 hw
  have hR := pyInt_clip_bounds (right_boundary (tf 18) (tf 43)) w2 hw
  have hT := pyInt_clip_bounds (top_boundary (tf 1) (tf 18)) h2 hh
  have hB := pyInt_clip_bounds (bottom_boundary (tf 14) (tf 43) + BOTTOM_EXTRA_PX) h2 hh
  exact ⟨hL.1, hL.2, hR.1, hR.2, hT.1, hT.2, hB.1, hB.2⟩

/-- C5 witness: the formula agreement and clamping at a concrete marker
layout and a 5x5 warped buffer. -/
theorem c5_crop_formula_witness :
    (1 : ℤ) ≤ 5 ∧
    spec_crop_left (fun ro => (fun _ : ℕ => q0) (role_id ro)) 5 =
      crop_left q0 q0 5 ∧
    0 ≤ crop_left q0 q0 5 ∧ crop_left q0 q0 5 ≤ 5 - 1 := by
  have h := c5_crop_formula (fun _ : ℕ => q0) 5 5 (by norm_num) (by norm_num)
  exact ⟨by norm_num, h.1, h.2.2.2.2.1, h.2.2.2.2.2.1⟩

/-- C6: whenever the clamped bounds satisfy `left >= right` or
`top >= bottom`, the interior crop fails with `InvalidCropBoundary`; and no
invocation ever returns zero-area or mirrored bounds, so a degenerate
marker layout can never silently produce an empty image. -/
theorem c6_invalid_crop (t1 t18 t43 t14 : Quad) (w2 h2 : ℤ)
    (hdeg : crop_left t1 t14 w2 ≥ crop_right t18 t43 w2 ∨
            crop_top t1 t18 h2 ≥ crop_bottom t14 t43 h2) :
    interior_crop t1 t18 t43 t14 w2 h2 = .error .invalidCropBoundary ∧
    ∀ (u1 u18 u43 u14 : Quad) (w h : ℤ),
      crop_ok_nondegen (interior_crop u1 u18 u43 u14 w h) = true := by
  constructor
  · unfold interior_crop
    rw [if_pos hdeg]
  · intro u1 u18 u43 u14 w h
    unfold interior_crop
    split
    · rfl
    · rename_i hn
      push_neg at hn
      simp only [crop_ok_nondegen, Bool.and_eq_true, decide_eq_true_eq]
      exact ⟨hn.1, hn.2⟩

/-- C6 witness: with the TL and TR (and BR, BL) transformed markers
coincident on a 100x100 warped buffer, the bounds are degenerate and the
interior crop fails with `InvalidCropBoundary`. -/
theorem c6_invalid_crop_witness :
    (crop_left qsq qsq 100 ≥ crop_right qsq qsq 100 ∨
     crop_top qsq qsq 100 ≥ crop_bottom qsq qsq 100) ∧
    interior_crop qsq qsq qsq qsq 100 100 = .error .invalidCropBoundary := by
  have h1 : crop_left qsq qsq 100 = 39 := by
    unfold crop_left left_boundary qmaxX qsq clip pyInt
    norm_num [max_def, min_def]
  have h2 : crop_right qsq qsq 100 = 0 := by
    unfold crop_right right_boundary qminX qsq clip pyInt
    norm_num [max_def, min_def]
  have hdeg : crop_left qsq qsq 100 ≥ crop_right qsq qsq 100 ∨
      crop_top qsq qsq 100 ≥ crop_bottom qsq qsq 100 := by
    left
    rw [h1, h2]
    norm_num
  exact ⟨hdeg, (c6_invalid_crop qsq qsq qsq qsq 100 100 hdeg).1⟩

theorem foldl_min_le_init (xs : List ℚ) (a : ℚ) : xs.foldl min a ≤ a := by
  induction xs generalizing a with
  | nil => simp
  | cons x xs ih => exact le_trans (ih (min a x)) (min_le_left a x)

theorem init_le_foldl_max (xs : List ℚ) (a : ℚ) : a ≤ xs.foldl max a := by
  induction xs generalizing a with
  | nil => simp
  | cons x xs ih => exact le_trans (le_max_left a x) (ih (max a x))

theorem qlistMin_le {l : List ℚ} {a : ℚ} (h : a ∈ l) : qlistMin l ≤ a := by
  match l with
  | [] => cases h
  | x :: xs =>
    unfold qlistMin
    rcases List.mem_cons.mp h with rfl | hmem
    · exact foldl_min_le_init xs a
    · clear h
      induction xs generalizing x with
      | nil => cases hmem
      | cons y ys ih =>
        rcases List.mem_cons.mp hmem with rfl | hmem2
        · exact le_trans (foldl_min_le_init ys (min x a)) (min_le_right x a)
        · exact ih (min x y) hmem2

theorem le_qlistMax {l : List ℚ} {a : ℚ} (h : a ∈ l) : a ≤ qlistMax l := by
  match l with
  | [] => cases h
  | x :: xs =>
    unfold qlistMax
    rcases List.mem_cons.mp h with rfl | hmem
    · exact init_le_foldl_max xs a
    · clear h
      induction xs generalizing x with
      | nil => cases hmem
      | cons y ys ih =>
        rcases List.mem_cons.mp hmem with rfl | hmem2
        · exact le_trans (le_max_right x a) (init_le_foldl_max ys (max x a))
        · exact ih (max x y) hmem2

theorem qlistMin_mem {l : List ℚ} (h : l ≠ []) : qlistMin l ∈ l := by
  match l with
  | [] => exact absurd rfl h
  | x :: xs =>
    clear h
    unfold qlistMin
    induction xs generalizing x with
    | nil => simp
    | cons y ys ih =>
      have := ih (min x y)
      rcases min_choice x y with hm | hm <;>
        rcases List.mem_cons.mp this with heq | hmem <;>
        simp_all [List.mem_cons]

theorem qlistMax_mem {l : List ℚ} (h : l ≠ []) : qlistMax l ∈ l := by
  match l with
  | [] => exact absurd rfl h
  | x :: xs =>
    clear h
    unfold qlistMax
    induction xs generalizing x with
    | nil => simp
    | cons y ys ih =>
      have := ih (max x y)
      rcases max_choice x y with hm | hm <;>
        rcases List.mem_cons.mp this with heq | hmem <;>
        simp_all [List.mem_cons]

theorem floor_lt_floor_of_add_one_le {a b : ℚ} (h : a + 1 ≤ b) : ⌊a⌋ < ⌊b⌋ := by
  have h2 : ⌊a + 1⌋ ≤ ⌊b⌋ := Int.floor_mono h
  rw [Int.floor_add_one] at h2
  omega

/-- One axis of the pre-crop: margins `10` below the minimum and
`margin ≥ 10` above the maximum, clamped to `[0, d-1]`, always give a
nonempty, in-bounds half-open slice when the coordinates lie inside an
image of extent `d ≥ 2`. -/
theorem precrop_axis_bounds (lo hi margin : ℚ) (d : ℤ)
    (hd : 2 ≤ d) (h0 : 0 ≤ lo) (hhi : hi ≤ (d : ℚ) - 1) (hlh : lo ≤ hi)
    (hm : 10 ≤ margin) :
    0 ≤ pyInt (max (lo - 10) 0) ∧
    pyInt (max (lo - 10) 0) < pyInt (min (hi + margin) ((d : ℚ) - 1)) ∧
    pyInt (min (hi + margin) ((d : ℚ) - 1)) ≤ d - 1 := by
  have hdq : (2 : ℚ) ≤ (d : ℚ) := by exact_mod_cast hd
  have ha0 : (0 : ℚ) ≤ max (lo - 10) 0 := le_max_right _ _
  have hab : max (lo - 10) 0 + 1 ≤ min (hi + margin) ((d : ℚ) - 1) := by
    rcases max_cases (lo - 10) 0 with ⟨heq, hc⟩ | ⟨heq, hc⟩ <;>
      rw [heq] <;> apply le_min <;> linarith
  have hb0 : (0 : ℚ) ≤ min (hi + margin) ((d : ℚ) - 1) := le_trans ha0 (by linarith)
  rw [pyInt_of_nonneg ha0, pyInt_of_nonneg hb0]
  refine ⟨Int.le_floor.mpr (by exact_mod_cast ha0), floor_lt_floor_of_add_one_le hab, ?_⟩
  have h1 : ⌊min (hi + margin) ((d : ℚ) - 1)⌋ ≤ ⌊((d - 1 : ℤ) : ℚ)⌋ := by
    apply Int.floor_mono
    push_cast
    exact min_le_right _ _
  rwa [Int.floor_intCast] at h1

/-- C10: when the image is at least 2x2 and every detected corner point
lies inside the image, the pre-crop bounds give a nonempty in-bounds slice
on both axes, and because the right/bottom bounds are clamped to the
dimension minus one and the slice end is exclusive, the last pixel column
and last pixel row are never part of the pre-crop. -/
theorem c10_precrop_bounds (w h : ℤ) (pts : List Point)
    (hw : 2 ≤ w) (hh : 2 ≤ h) (hne : pts ≠ [])
    (hin : ∀ p ∈ pts, 0 ≤ p.1 ∧ p.1 ≤ (w : ℚ) - 1 ∧ 0 ≤ p.2 ∧ p.2 ≤ (h : ℚ) - 1) :
    0 ≤ pre_left (qlistMin (pts.map Prod.fst)) ∧
    pre_left (qlistMin (pts.map Prod.fst)) < pre_right (qlistMax (pts.map Prod.fst)) w ∧
    pre_right (qlistMax (pts.map Prod.fst)) w ≤ w - 1 ∧
    0 ≤ pre_top (qlistMin (pts.map Prod.snd)) ∧
    pre_top (qlistMin (pts.map Prod.snd)) < pre_bottom (qlistMax (pts.map Prod.snd)) h ∧
    pre_bottom (qlistMax (pts.map Prod.snd)) h ≤ h - 1 ∧
    (∀ j : ℤ, pre_left (qlistMin (pts.map Prod.fst)) ≤ j →
      j < pre_right (qlistMax (pts.map Prod.fst)) w → j < w - 1) ∧
    (∀ i : ℤ, pre_top (qlistMin (pts.map Prod.snd)) ≤ i →
      i < pre_bottom (qlistMax (pts.map Prod.snd)) h → i < h - 1) := by
  have hxne : pts.map Prod.fst ≠ [] := by
    intro hcon
    exact hne (List.map_eq_nil_iff.mp hcon)
  have hyne : pts.map Prod.snd ≠ [] := by
    intro hcon
    exact hne (List.map_eq_nil_iff.mp hcon)
  obtain ⟨px, hpx, hpx2⟩ := List.mem_map.mp (qlistMin_mem hxne)
  obtain ⟨qx, hqx, hqx2⟩ := List.mem_map.mp (qlistMax_mem hxne)
  obtain ⟨py, hpy, hpy2⟩ := List.mem_map.mp (qlistMin_mem hyne)
  obtain ⟨qy, hqy, hqy2⟩ := List.mem_map.mp (qlistMax_mem hyne)
  have hx0 : 0 ≤ qlistMin (pts.map Prod.fst) := hpx2 ▸ (hin px hpx).1
  have hxw : qlistMax (pts.map Prod.fst) ≤ (w : ℚ) - 1 := hqx2 ▸ (hin qx hqx).2.1
  have hy0 : 0 ≤ qlistMin (pts.map Prod.snd) := hpy2 ▸ (hin py hpy).2.2.1
  have hyh : qlistMax (pts.map Prod.snd) ≤ (h : ℚ) - 1 := hqy2 ▸ (hin qy hqy).2.2.2
  have hxmm : qlistMin (pts.map Prod.fst) ≤ qlistMax (pts.map Prod.fst) :=
    le_trans (qlistMin_le (List.mem_map_of_mem Prod.fst hpx)) (le_qlistMax (List.mem_map_of_mem Prod.fst hpx))
  have hymm : qlistMin (pts.map Prod.snd) ≤ qlistMax (pts.map Prod.snd) :=
    le_trans (qlistMin_le (List.mem_map_of_mem Prod.snd hpy)) (le_qlistMax (List.mem_map_of_mem Prod.snd hpy))
  have hX := precrop_axis_bounds (qlistMin (pts.map Prod.fst)) (qlistMax (pts.map Prod.fst))
    10 w hw hx0 hxw hxmm (by norm_num)
  have hY := precrop_axis_bounds (qlistMin (pts.map Prod.snd)) (qlistMax (pts.map Prod.snd))
    PRE_MARGIN_PX h hh hy0 hyh hymm (by norm_num [PRE_MARGIN_PX])
  unfold pre_left pre_right pre_top pre_bottom
  refine ⟨hX.1, hX.2.1, hX.2.2, hY.1, hY.2.1, hY.2.2, ?_, ?_⟩
  · intro j _ hj2
    have := hX.2.2
    omega
  · intro i _ hi2
    have := hY.2.2
    omega

/-- C10 witness: the pre-crop bounds theorem at a concrete 100x100 image
with four corner points strictly inside it. -/
theorem c10_precrop_bounds_witness :
    ((2 : ℤ) ≤ 100 ∧ ([((5 : ℚ), (5 : ℚ)), (60, 5), (60, 60), (5, 60)] : List Point) ≠ []) ∧
    0 ≤ pre_left (qlistMin (([((5 : ℚ), (5 : ℚ)), (60, 5), (60, 60), (5, 60)] : List Point).map Prod.fst)) ∧
    pre_left (qlistMin (([((5 : ℚ), (5 : ℚ)), (60, 5), (60, 60), (5, 60)] : List Point).map Prod.fst)) <
      pre_right (qlistMax (([((5 : ℚ), (5 : ℚ)), (60, 5), (60, 60), (5, 60)] : List Point).map Prod.fst)) 100 ∧
    pre_right (qlistMax (([((5 : ℚ), (5 : ℚ)), (60, 5), (60, 60), (5, 60)] : List Point).map Prod.fst)) 100 ≤ 100 - 1 := by
  have h := c10_precrop_bounds 100 100
    ([((5 : ℚ), (5 : ℚ)), (60, 5), (60, 60), (5, 60)] : List Point)
    (by norm_num) (by norm_num) (by simp)
    (by
      intro p hp
      rcases List.mem_cons.mp hp with rfl | hp
      · norm_num
      rcases List.mem_cons.mp hp with rfl | hp
      · norm_num
      rcases List.mem_cons.mp hp with rfl | hp
      · norm_num
      rcases List.mem_cons.mp hp with rfl | hp
      · norm_num
      cases hp)
  exact ⟨⟨by norm_num, by simp⟩, h.1, h.2.1, h.2.2.1⟩

theorem except_bind_ok {α β : Type} {x : Except PErr α} {f : α → Except PErr β} {b : β} :
    Except.bind x f = .ok b ↔ ∃ a, x = .ok a ∧ f a = .ok b := by
  cases x <;> simp [Except.bind]

theorem detect_markers_error {d : Option (List (ℕ × Quad))} {e : PErr}
    (h : detect_markers d = .error e) :
    e = .markerNotDetected ∨ ∃ m, e = .missingRequiredIDs m := by
  cases d with
  | none =>
    simp only [detect_markers] at h
    exact Or.inl (Except.error.inj h).symm
  | some dets =>
    simp only [detect_markers] at h
    split at h
    · exact Or.inl (Except.error.inj h).symm
    · split at h
      · exact absurd h (by simp)
      · exact Or.inr ⟨_, (Except.error.inj h).symm⟩

theorem interior_crop_error {t1 t18 t43 t14 : Quad} {w2 h2 : ℤ} {e : PErr}
    (h : interior_crop t1 t18 t43 t14 w2 h2 = .error e) :
    e = .invalidCropBoundary := by
  unfold interior_crop at h
  split at h
  · exact (Except.error.inj h).symm
  · exact absurd h (by simp)

theorem rectify_with_error {cv : CV} {pre : Img} {q1 q18 q43 q14 : Quad}
    {dw dh : ℤ} {e : PErr}
    (h : rectify_with cv pre q1 q18 q43 q14 dw dh = .error e) :
    e = .invalidCropBoundary := by
  unfold rectify_with at h
  split at h
  · rename_i e' heq
    exact (Except.error.inj h) ▸ interior_crop_error heq
  · exact absurd h (by simp)

theorem rectify_core_error {cv : CV} {cfg : Config} {pre : Img}
    {det2 : List (ℕ × Quad)} {e : PErr}
    (h : rectify_core cv cfg pre det2 = .error e) :
    e = .invalidCropBoundary ∨ e = .lookupFailure := by
  unfold rectify_core at h
  split at h
  · exact Or.inl (rectify_with_error h)
  · exact Or.inr (Except.error.inj h).symm

theorem finalize_error {env : Env} {dp : Bool} {x : Img} {e : PErr}
    (h : finalize env dp x = .error e) : e = .ioFailure := by
  unfold finalize at h
  split at h
  · split at h
    · split at h
      · split at h
        · exact absurd h (by simp)
        · exact (Except.error.inj h).symm
      · exact absurd h (by simp)
    · exact (Except.error.inj h).symm
  · exact (Except.error.inj h).symm

theorem finalize_ok {env : Env} {dp : Bool} {x y : Img}
    (h : finalize env dp x = .ok y) : y = x := by
  unfold finalize at h
  split at h
  · split at h
    · split at h
      · split at h
        · exact (Except.ok.inj h).symm
        · exact absurd h (by simp)
      · exact (Except.ok.inj h).symm
    · exact absurd h (by simp)
  · exact absurd h (by simp)

theorem crop_bound_eq_of_nonpos (v : ℚ) (d : ℤ) (hd : d ≤ 0) :
    pyInt (clip v 0 ((d : ℚ) - 1)) = d - 1 := by
  have hdq : (d : ℚ) ≤ 0 := by exact_mod_cast hd
  have h1 : clip v 0 ((d : ℚ) - 1) = (d : ℚ) - 1 := by
    unfold clip
    apply min_eq_right
    exact le_trans (by linarith) (le_max_right v 0)
  rw [h1, show ((d : ℚ) - 1) = ((d - 1 : ℤ) : ℚ) by push_cast; ring, pyInt_intCast]

theorem interior_crop_ok_bounds {t1 t18 t43 t14 : Quad} {w2 h2 l r t b : ℤ}
    (h : interior_crop t1 t18 t43 t14 w2 h2 = .ok (l, r, t, b)) :
    0 ≤ l ∧ l < r ∧ r ≤ w2 - 1 ∧ 0 ≤ t ∧ t < b ∧ b ≤ h2 - 1 := by
  unfold interior_crop at h
  split at h
  · exact absurd h (by simp)
  · rename_i hn
    push_neg at hn
    obtain ⟨hlt1, hlt2⟩ := hn
    obtain ⟨hl, hr, ht, hb⟩ :
        crop_left t1 t14 w2 = l ∧ crop_right t18 t43 w2 = r ∧
        crop_top t1 t18 h2 = t ∧ crop_bottom t14 t43 h2 = b := by
      simpa [Prod.ext_iff] using Except.ok.inj h
    subst hl hr ht hb
    have hw : 1 ≤ w2 := by
      by_contra hcon
      push_neg at hcon
      have hw0 : w2 ≤ 0 := by omega
      have e1 : crop_left t1 t14 w2 = w2 - 1 := by
        unfold crop_left
        exact crop_bound_eq_of_nonpos _ _ hw0
      have e2 : crop_right t18 t43 w2 = w2 - 1 := by
        unfold crop_right
        exact crop_bound_eq_of_nonpos _ _ hw0
      rw [e1, e2] at hlt1
      omega
    have hh : 1 ≤ h2 := by
      by_contra hcon
      push_neg at hcon
      have hh0 : h2 ≤ 0 := by omega
      have e1 : crop_top t1 t18 h2 = h2 - 1 := by
        unfold crop_top
        exact crop_bound_eq_of_nonpos _ _ hh0
      have e2 : crop_bottom t14 t43 h2 = h2 - 1 := by
        unfold crop_bottom
        exact crop_bound_eq_of_nonpos _ _ hh0
      rw [e1, e2] at hlt2
      omega
    have hL := pyInt_clip_bounds (left_boundary t1 t14) w2 hw
    have hR := pyInt_clip_bounds (right_boundary t18 t43) w2 hw
    have hT := pyInt_clip_bounds (top_boundary t1 t18) h2 hh
    have hB := pyInt_clip_bounds (bottom_boundary t14 t43 + BOTTOM_EXTRA_PX) h2 hh
    exact ⟨hL.1, hlt1, hR.2, hT.1, hlt2, hB.2⟩

theorem rectify_with_ok_dims {cv : CV} {pre : Img} {q1 q18 q43 q14 : Quad}
    {dw dh : ℤ} {fin : Img}
    (h : rectify_with cv pre q1 q18 q43 q14 dw dh = .ok fin) :
    0 < fin.width ∧ fin.width < dw ∧ 0 < fin.height ∧ fin.height < dh := by
  unfold rectify_with at h
  split at h
  · exact absurd h (by simp)
  · rename_i l r t b heq
    have hb := interior_crop_ok_bounds heq
    have hfin := (Except.ok.inj h).symm
    subst hfin
    simp only [cropImg]
    rw [max_eq_right (by omega : (0 : ℤ) ≤ r - l), max_eq_right (by omega : (0 : ℤ) ≤ b - t)]
    omega

/-- C7: whenever the pipeline succeeds, the warp buffer the rectifier
produces has exactly the computed target dimensions, and the final image
after the interior crop is strictly smaller than that buffer in both
dimensions (and nonempty). -/
theorem c7_output_dims (cv : CV) (cfg : Config) (input : Option Img) (env : Env)
    (fin : Img) (h : process_slab_image cv cfg input env = .ok fin) :
    (∀ (p : Img) (M : Point → Point) (dw dh : ℤ),
      (mkWarped cv p M dw dh).width = dw ∧ (mkWarped cv p M dw dh).height = dh) ∧
    0 < fin.width ∧ 0 < fin.height ∧
    fin.width < dst_w cfg.frame_width_in cfg.stone_thickness_mm ∧
    fin.height < dst_h cfg.frame_height_in cfg.stone_thickness_mm := by
  refine ⟨fun p M dw dh => ⟨rfl, rfl⟩, ?_⟩
  cases input with
  | none => exact absurd h (by simp [process_slab_image])
  | some image =>
    simp only [process_slab_image] at h
    obtain ⟨dets, hdets, h⟩ := except_bind_ok.mp h
    obtain ⟨det2, hdet2, h⟩ := except_bind_ok.mp h
    obtain ⟨fin', hcore, hfinal⟩ := except_bind_ok.mp h
    obtain rfl := finalize_ok hfinal
    unfold rectify_core at hcore
    split at hcore
    · have hd := rectify_with_ok_dims hcore
      exact ⟨hd.1, hd.2.2.1, hd.2.1, hd.2.2.2⟩
    · exact absurd hcore (by simp)

/-- C2: the source has no geometry guard.  With the default frame and a
3100 mm slab the scale factor and corrected width are negative, yet no
invocation of the pipeline ever fails with `InvalidGeometryConfig`; on
such a configuration the engine still attempts marker detection (here
surfacing the detector's `MarkerNotDetected`). -/
theorem c2_no_geometry_guard :
    scale_factor 3100 < 0 ∧
    corrected_width_in 153.625 3100 < 0 ∧
    (∀ (cv : CV) (cfg : Config) (input : Option Img) (env : Env),
      isInvalidGeometryError (process_slab_image cv cfg input env) = false) ∧
    process_slab_image cvNone cfgBad (some img0) envAll = .error .markerNotDetected := by
  refine ⟨?_, ?_, ?_, rfl⟩
  · unfold scale_factor CAMERA_DISTANCE_IN SUPPORT_THICKNESS_IN
    norm_num
  · unfold corrected_width_in total_offset_in stone_thickness_in
      CAMERA_DISTANCE_IN SUPPORT_THICKNESS_IN
    norm_num
  · intro cv cfg input env
    cases input with
    | none => rfl
    | some image =>
      simp only [process_slab_image]
      cases hdets : detect_markers (cv.detect (cv.gray image)) with
      | error e =>
        rcases detect_markers_error hdets with rfl | ⟨m, rfl⟩ <;> rfl
      | ok dets =>
        simp only [Except.bind]
        cases hdet2 : detect_markers (cv.detect (cv.gray (pre_crop_img image dets))) with
        | error e =>
          rcases detect_markers_error hdet2 with rfl | ⟨m, rfl⟩ <;> rfl
        | ok det2 =>
          simp only [Except.bind]
          cases hcore : rectify_core cv cfg (pre_crop_img image dets) det2 with
          | error e =>
            rcases rectify_core_error hcore with rfl | rfl <;> rfl
          | ok fin' =>
            simp only [Except.bind]
            cases hfin : finalize env cfg.debug_path fin' with
            | error e =>
              obtain rfl := finalize_error hfin
              rfl
            | ok y =>
              rfl

/-- C3: a failure while writing the sidecar metadata file or the debug
overlay is not swallowed by the source: whenever an invocation with all
writes succeeding returns success, the same invocation with a failing
sidecar write (or, when a debug path is configured, a failing debug
write) fails with an escalated I/O error instead of returning success. -/
theorem c3_metadata_write_failure (cv : CV) (cfg : Config) (input : Option Img)
    (fin : Img) (d : Bool)
    (h : process_slab_image cv cfg input ⟨true, true, true⟩ = .ok fin) :
    process_slab_image cv cfg input ⟨true, false, d⟩ = .error .ioFailure ∧
    (cfg.debug_path = true →
      process_slab_image cv cfg input ⟨true, true, false⟩ = .error .ioFailure) := by
  cases input with
  | none => exact absurd h (by simp [process_slab_image])
  | some image =>
    simp only [process_slab_image] at h ⊢
    obtain ⟨dets, hdets, h⟩ := except_bind_ok.mp h
    obtain ⟨det2, hdet2, h⟩ := except_bind_ok.mp h
    obtain ⟨fin', hcore, hfinal⟩ := except_bind_ok.mp h
    constructor
    · rw [hdets]
      simp only [Except.bind]
      rw [hdet2]
      simp only [Except.bind]
      rw [hcore]
      simp only [Except.bind]
      unfold finalize
      simp
    · intro hdp
      rw [hdets]
      simp only [Except.bind]
      rw [hdet2]
      simp only [Except.bind]
      rw [hcore]
      simp only [Except.bind]
      unfold finalize
      rw [hdp]
      simp

/-- C9: the pipeline is a pure function of the OpenCV primitives, the
configuration, the input image and the write environment: identical
inputs produce identical outcomes, with no hidden randomness or
cross-call state. -/
theorem c9_deterministic (cv : CV) (cfg1 cfg2 : Config) (i1 i2 : Option Img)
    (e1 e2 : Env) (hc : cfg1 = cfg2) (hi : i1 = i2) (he : e1 = e2) :
    process_slab_image cv cfg1 i1 e1 = process_slab_image cv cfg2 i2 e2 := by
  rw [hc, hi, he]

/-- C9 witness: the determinism theorem applied to two byte-identical
invocations of the concrete fixture. -/
theorem c9_deterministic_witness :
    process_slab_image cv0 cfg0 (some img0) envAll =
      process_slab_image cv0 cfg0 (some img0) envAll :=
  c9_deterministic cv0 cfg0 cfg0 (some img0) (some img0) envAll envAll rfl rfl rfl

/-- Target pixel width at the default configuration. -/
theorem dst_w_default : dst_w 153.625 30 = 3855 := by
  unfold dst_w corrected_width_in total_offset_in stone_thickness_in px_per_mm
    TARGET_PPI CAMERA_DISTANCE_IN SUPPORT_THICKNESS_IN pyInt
  norm_num

/-- Target pixel height at the default configuration. -/
theorem dst_h_default : dst_h 94.2 30 = 2364 := by
  unfold dst_h corrected_height_in total_offset_in stone_thickness_in px_per_mm
    TARGET_PPI CAMERA_DISTANCE_IN SUPPORT_THICKNESS_IN pyInt
  norm_num

theorem interior_crop_fixture :
    interior_crop quadTL quadTR quadBR quadBL 3855 2364 = .ok (39, 1000, 39, 1339) := by
  have hcl : crop_left quadTL quadBL 3855 = 39 := by
    unfold crop_left left_boundary qmaxX quadTL quadBL clip pyInt
    norm_num [max_def, min_def]
  have hcr : crop_right quadTR quadBR 3855 = 1000 := by
    unfold crop_right right_boundary qminX quadTR quadBR clip pyInt
    norm_num [max_def, min_def]
  have hct : crop_top quadTL quadTR 2364 = 39 := by
    unfold crop_top top_boundary qmaxY quadTL quadTR clip pyInt
    norm_num [max_def, min_def]
  have hcb : crop_bottom quadBL quadBR 2364 = 1339 := by
    unfold crop_bottom bottom_boundary qmaxY quadBL quadBR BOTTOM_EXTRA_PX clip pyInt
    norm_num [max_def, min_def]
  unfold interior_crop
  rw [hcl, hcr, hct, hcb]
  norm_num

/-- One complete successful run of the pipeline on the fixture. -/
theorem fixture_run : process_slab_image cv0 cfg0 (some img0) envAll = .ok finFix := by
  have hcore : rectify_core cv0 cfg0 (pre_crop_img img0 fixtureDet) fixtureDet = .ok finFix := by
    unfold rectify_core
    simp only [show dlookup fixtureDet 1 = some quadTL from rfl,
      show dlookup fixtureDet 18 = some quadTR from rfl,
      show dlookup fixtureDet 43 = some quadBR from rfl,
      show dlookup fixtureDet 14 = some quadBL from rfl]
    rw [show cfg0.frame_width_in = 153.625 from rfl,
      show cfg0.stone_thickness_mm = 30 from rfl,
      show cfg0.frame_height_in = 94.2 from rfl,
      dst_w_default, dst_h_default]
    unfold rectify_with
    rw [show cv0.getPerspectiveTransform (src_quad quadTL quadTR quadBR quadBL)
        (dst_quad 3855 2364) = id from rfl,
      show qmap id quadTL = quadTL from rfl,
      show qmap id quadTR = quadTR from rfl,
      show qmap id quadBR = quadBR from rfl,
      show qmap id quadBL = quadBL from rfl,
      interior_crop_fixture]
    rfl
  simp only [process_slab_image]
  rw [show detect_markers (cv0.detect (cv0.gray img0)) = .ok fixtureDet from rfl]
  simp only [Except.bind]
  rw [show detect_markers (cv0.detect (cv0.gray (pre_crop_img img0 fixtureDet))) =
      .ok fixtureDet from rfl]
  simp only [Except.bind]
  rw [hcore]
  simp only [Except.bind]
  rfl

/-- C7 witness: the dimension theorem at the successful fixture run. -/
theorem c7_output_dims_witness :
    process_slab_image cv0 cfg0 (some img0) envAll = .ok finFix ∧
    0 < finFix.width ∧ 0 < finFix.height ∧
    finFix.width < dst_w cfg0.frame_width_in cfg0.stone_thickness_mm ∧
    finFix.height < dst_h cfg0.frame_height_in cfg0.stone_thickness_mm := by
  have h := c7_output_dims cv0 cfg0 (some img0) envAll finFix fixture_run
  exact ⟨fixture_run, h.2.1, h.2.2.1, h.2.2.2.1, h.2.2.2.2⟩

/-- C3 witness: the fixture run succeeds with all writes succeeding, and
the same invocation fails with an I/O error when the sidecar write or the
debug write fails. -/
theorem c3_metadata_write_failure_witness :
    process_slab_image cv0 cfg0 (some img0) ⟨true, true, true⟩ = .ok finFix ∧
    process_slab_image cv0 cfg0 (some img0) ⟨true, false, true⟩ = .error .ioFailure ∧
    process_slab_image cv0 cfg0 (some img0) ⟨true, true, false⟩ = .error .ioFailure := by
  have hrun : process_slab_image cv0 cfg0 (some img0) ⟨true, true, true⟩ = .ok finFix :=
    fixture_run
  have h := c3_metadata_write_failure cv0 cfg0 (some img0) finFix true hrun
  exact ⟨hrun, h.1, h.2 rfl⟩

end Lifestone

